import Mathlib

/-!
Shallow embedding of src/convert.py (Bitwarden-to-Mooltipass converter).

The program reads a JSON export, optionally resolves --filter / --exclude
folder names to folder ids, and writes one csv line per (item, uri) pair.
JSON fields that the code reads with dict.get(key, None) are modelled as
Option values collapsing an absent key and a null value (the code cannot
tell them apart there); fields read by direct subscript, where an absent
key raises KeyError, carry an extra Option layer or are routed through an
error-returning access.  String truthiness and the Python substring
operator (a in b) are modelled explicitly.
-/

set_option autoImplicit false

namespace Bw2mp

/-- A folder record of the export document: the id and name fields that
src/convert.py reads in folder_name_to_id. -/
structure Folder where
  id : String
  name : String
deriving Repr, DecidableEq

/-- One entry of login.uris; the code reads its uri field by direct
subscript and the export format always supplies it. -/
structure UriEntry where
  uri : String
deriving Repr, DecidableEq

/-- The login block of an item.  username and password are read by direct
subscript in main (lines 79-80): the outer Option models whether the key is
present at all (none = KeyError on access), the inner Option models a JSON
null value versus a string.  uris (line 82) is none when the key is absent
or null: iterating it then raises, so both collapse to one error case. -/
structure Login where
  username : Option (Option String)
  password : Option (Option String)
  uris : Option (List UriEntry)
deriving Repr, DecidableEq

/-- An item of the export document.  folderId is none when the key is
absent or null: the exclude check reads it with a None default (line 68)
and the include check by direct subscript (line 85), where both an absent
key (KeyError) and a null value (TypeError in the in operator) abort.
login is none when absent or null, exactly what i.get(login, None) yields. -/
structure Item where
  folderId : Option String
  login : Option Login
deriving Repr, DecidableEq

/-- The parsed export document: the folders and items arrays. -/
structure Doc where
  folders : List Folder
  items : List Item
deriving Repr, DecidableEq

/-- The parsed command-line arguments of get_args: each defaults to None. -/
structure Args where
  file : Option String
  filter : Option String
  exclude : Option String
deriving Repr, DecidableEq

/-- An uncaught Python exception from a direct field access, tagged with
the field whose access raised (KeyError on a missing key, or TypeError
when the in operator meets a null folderId). -/
inductive PyError where
  | attrError (field : String)
deriving Repr, DecidableEq

/-- Python truthiness of an optional string: None and the empty string are
falsy, every other string is truthy. -/
def truthy : Option String → Bool
  | none => false
  | some s => s != ""

/-- Whether the first character list starts the second one. -/
def chLead : List Char → List Char → Bool
  | [], _ => true
  | _ :: _, [] => false
  | a :: as, b :: bs => a == b && chLead as bs

/-- Whether the first character list occurs contiguously inside the second. -/
def chSub : List Char → List Char → Bool
  | n, [] => n.isEmpty
  | n, b :: bs => chLead n (b :: bs) || chSub n bs

/-- The Python expression a in b on strings: substring containment.  The
empty string is contained in every string. -/
def pyIn (a b : String) : Bool := chSub a.data b.data

/-- Python f-string rendering of a value that is either None or a string:
None renders as the four characters None. -/
def pyStr : Option String → String
  | none => "None"
  | some s => s

/-- One output line as built at line 83 of src/convert.py:
uri,username,password. -/
def mkRecord (username password : Option String) (u : UriEntry) : String :=
  u.uri ++ "," ++ pyStr username ++ "," ++ pyStr password

/-- The loop body of folder_name_to_id: scan the folders in order and
return the id of the first folder whose name equals the given name;
fall through to None when no folder matches (lines 42-45). -/
def folderScan : List Folder → String → Option String
  | [], _ => none
  | f :: fs, name => if f.name == name then some f.id else folderScan fs name

/-- Embeds folder_name_to_id of src/convert.py: first-match lookup over
js.folders, absence is None, never an error. -/
def folder_name_to_id (js : Doc) (name : String) : Option String :=
  folderScan js.folders name

/-- The exclude check at the top of the item loop (lines 68-72): folderid
is read with a None default; the item is skipped when folderid and exclude
are both truthy and folderid is a substring of the exclude id (Python in). -/
def excludedBy (exclude : Option String) (i : Item) : Bool :=
  truthy i.folderId && truthy exclude &&
    pyIn (i.folderId.getD "") (exclude.getD "")

/-- The inner loop over login.uris (lines 82-90): build the line, then
either gate on folder_id being a substring of the item folderId — read by
direct subscript, so a missing or null folderId raises — or, with no
include id, write unconditionally.  Returns the lines written in order and
the first uncaught error, if any. -/
def uriLoop (folder_id fid username password : Option String) :
    List UriEntry → List String × Option PyError
  | [] => ([], none)
  | u :: us =>
    let item := mkRecord username password u
    if truthy folder_id then
      match fid with
      | none => ([], some (PyError.attrError "folderId"))
      | some f =>
        if pyIn (folder_id.getD "") f then
          let r := uriLoop folder_id fid username password us
          (item :: r.1, r.2)
        else
          uriLoop folder_id fid username password us
    else
      let r := uriLoop folder_id fid username password us
      (item :: r.1, r.2)

/-- The body of the per-item loop of main (lines 67-90): exclude check,
login presence check (skip when login is absent or null), direct subscript
access to username, password and uris, then the uri loop.  Returns the
lines this item writes and the first uncaught error, if any. -/
def processItem (folder_id exclude : Option String) (i : Item) :
    List String × Option PyError :=
  if excludedBy exclude i then ([], none)
  else
    match i.login with
    | none => ([], none)
    | some login =>
      match login.username with
      | none => ([], some (PyError.attrError "username"))
      | some username =>
        match login.password with
        | none => ([], some (PyError.attrError "password"))
        | some password =>
          match login.uris with
          | none => ([], some (PyError.attrError "uris"))
          | some uris => uriLoop folder_id i.folderId username password uris

/-- The item loop of main: process items in order, keeping the lines
already written when an uncaught error stops the loop. -/
def convertItems (folder_id exclude : Option String) :
    List Item → List String × Option PyError
  | [] => ([], none)
  | i :: is =>
    match processItem folder_id exclude i with
    | (ls, some e) => (ls, some e)
    | (ls, none) =>
      match convertItems folder_id exclude is with
      | (ls2, e2) => (ls ++ ls2, e2)

/-- folder_id as main computes it (lines 58-60): resolved only when
args.filter is truthy, else None; an unresolved name also yields None. -/
def resolvedFilter (args : Args) (js : Doc) : Option String :=
  if truthy args.filter then folder_name_to_id js (args.filter.getD "")
  else none

/-- exclude as main computes it (lines 62-64). -/
def resolvedExclude (args : Args) (js : Doc) : Option String :=
  if truthy args.exclude then folder_name_to_id js (args.exclude.getD "")
  else none

/-- The observable outcome of one run of the program: the process exit
status, whether the output csv file was opened (created/truncated), the
lines written to it (each also echoed to stdout), and the user-facing
message for the early-exit and fatal paths. -/
structure MainResult where
  exitCode : Nat
  csvCreated : Bool
  lines : List String
  message : Option String
deriving Repr, DecidableEq

/-- Embeds main of src/convert.py together with the argv-length check of
get_args.  hasArgs models len(sys.argv) >= 2: without it the help text is
printed and sys.exit(1) runs.  With arguments but a falsy args.file, main
prints its error line and calls bare exit(), which exits with status 0.
loaded models the result of load_json(args.file): none when open or
json.load raises (missing file or malformed JSON), which aborts — exit
status 1 via the uncaught exception — before the csv file is opened.
Otherwise the csv file is opened (created/truncated) and the item loop
runs; an uncaught exception inside it exits with status 1, the with block
closing the file with the lines written so far. -/
def pymain (hasArgs : Bool) (args : Args) (loaded : Option Doc) : MainResult :=
  if !hasArgs then
    { exitCode := 1, csvCreated := false, lines := [], message := some "usage" }
  else if !(truthy args.file) then
    { exitCode := 0, csvCreated := false, lines := [],
      message := some "Error: Need a json file from Bitwarden" }
  else
    match loaded with
    | none =>
      { exitCode := 1, csvCreated := false, lines := [],
        message := some "traceback" }
    | some js =>
      match convertItems (resolvedFilter args js) (resolvedExclude args js)
          js.items with
      | (ls, none) =>
        { exitCode := 0, csvCreated := true, lines := ls, message := none }
      | (ls, some _) =>
        { exitCode := 1, csvCreated := true, lines := ls,
          message := some "traceback" }

/-- The per-uri emit condition of the uri loop, as a function of the
include id and the item folderId: no include id set, or the include id a
substring of the (present) folderId. -/
def emits (folder_id fid : Option String) : Bool :=
  if truthy folder_id then
    match fid with
    | none => false
    | some f => pyIn (folder_id.getD "") f
  else true

/-- Whether an item is included in the output: it survives the exclude
check, has login data, and satisfies the emit condition of the uri loop. -/
def includedItem (folder_id exclude : Option String) (i : Item) : Bool :=
  !(excludedBy exclude i) && i.login.isSome && emits folder_id i.folderId

/-- The number of entries of an item uris sequence (zero when login or the
uris key is missing). -/
def urisCount (i : Item) : Nat :=
  match i.login with
  | none => 0
  | some lg => (lg.uris.getD []).length

/-- A login block whose three keys are all present. -/
def fullLogin (un pw : Option String) (us : List UriEntry) : Login :=
  ⟨some un, some pw, some us⟩

/-- Document with folder id 1 named Work and one item whose folderId is 12:
the include id 1 is a proper substring of 12. -/
def docSubstr : Doc :=
  ⟨[⟨"1", "Work"⟩],
   [⟨some "12", some (fullLogin (some "u") (some "p") [⟨"x"⟩])⟩]⟩

/-- Document with one item whose login block has no username key but one
uri: processing it raises KeyError. -/
def docNoUser : Doc :=
  ⟨[], [⟨none, some ⟨none, some (some "p"), some [⟨"y"⟩]⟩⟩]⟩

/-- An item whose login block has username and password but no uris key. -/
def itemNoUris : Item := ⟨none, some ⟨some (some "u"), some (some "p"), none⟩⟩

/-- An item whose login block has all keys and an empty uris list. -/
def itemEmptyUris : Item := ⟨none, some (fullLogin (some "u") (some "p") [])⟩

/-- Document with no folders at all (any filter name is unresolvable) and
one ordinary credential item. -/
def docUnresolved : Doc :=
  ⟨[], [⟨some "1", some (fullLogin (some "u") (some "p") [⟨"x"⟩])⟩]⟩

/-- Document with a folder whose id is the empty string and an item inside
it: empty strings are falsy, so both folder checks are skipped. -/
def docEmptyId : Doc :=
  ⟨[⟨"", "E"⟩],
   [⟨some "", some (fullLogin (some "u") (some "p") [⟨"x"⟩])⟩]⟩

/-- An item with a folderId but no login block. -/
def itemNoLogin : Item := ⟨some "7", none⟩

/-- Document with two distinct folders that share the name Work. -/
def docDup : Doc := ⟨[⟨"1", "Work"⟩, ⟨"2", "Work"⟩], []⟩

/-- An item with login data and one uri but no folderId key. -/
def itemNoFolder : Item :=
  ⟨none, some (fullLogin (some "u") (some "p") [⟨"x"⟩])⟩

/-- A well-formed document: one Work item with two uris, one item without
login data. -/
def docOk : Doc :=
  ⟨[⟨"1", "Work"⟩],
   [⟨some "1", some (fullLogin (some "u") (some "p") [⟨"a"⟩, ⟨"b"⟩])⟩,
    ⟨some "9", none⟩]⟩

theorem chLead_refl : ∀ l : List Char, chLead l l = true
  | [] => rfl
  | a :: as => by simp [chLead, chLead_refl as]

theorem pyIn_refl (s : String) : pyIn s s = true := by
  unfold pyIn
  cases h : s.data with
  | nil => rfl
  | cons c cs => simp [chSub, chLead_refl]

/-- Full characterisation of the uri loop: when the emit condition holds
every uri yields its line; when an include id is set but the folderId is
missing, a nonempty uris list raises; otherwise nothing is written. -/
theorem uriLoop_eq (folder_id fid username password : Option String)
    (us : List UriEntry) :
    uriLoop folder_id fid username password us =
      if emits folder_id fid then
        (us.map (mkRecord username password), none)
      else if truthy folder_id && fid.isNone && !us.isEmpty then
        ([], some (PyError.attrError "folderId"))
      else ([], none) := by
  induction us with
  | nil =>
    simp only [uriLoop, List.map_nil, List.isEmpty_nil, Bool.not_true,
      Bool.and_false]
    split <;> simp
  | cons u us ih =>
    cases hT : truthy folder_id with
    | false =>
      have hE : emits folder_id fid = true := by simp [emits, hT]
      simp [uriLoop, hT, hE, ih]
    | true =>
      cases fid with
      | none =>
        have hE : emits folder_id none = false := by simp [emits, hT]
        simp [uriLoop, hT, hE]
      | some f =>
        cases hP : pyIn (folder_id.getD "") f with
        | true =>
          have hE : emits folder_id (some f) = true := by simp [emits, hT, hP]
          simp [uriLoop, hT, hP, hE, ih]
        | false =>
          have hE : emits folder_id (some f) = false := by simp [emits, hT, hP]
          simp [uriLoop, hT, hP, hE, ih]

/-- When an item is processed without error, the number of lines it writes
is its uris count if it is included and zero otherwise. -/
theorem processItem_len (folder_id exclude : Option String) (i : Item)
    (h : (processItem folder_id exclude i).2 = none) :
    (processItem folder_id exclude i).1.length =
      if includedItem folder_id exclude i then urisCount i else 0 := by
  cases hexc : excludedBy exclude i with
  | true => simp [processItem, includedItem, hexc]
  | false =>
    cases hlog : i.login with
    | none => simp [processItem, includedItem, hexc, hlog]
    | some lg =>
      cases hun : lg.username with
      | none => simp [processItem, hexc, hlog, hun] at h
      | some un =>
        cases hpw : lg.password with
        | none => simp [processItem, hexc, hlog, hun, hpw] at h
        | some pw =>
          cases hur : lg.uris with
          | none => simp [processItem, hexc, hlog, hun, hpw, hur] at h
          | some us =>
            have hrw : processItem folder_id exclude i =
                uriLoop folder_id i.folderId un pw us := by
              simp [processItem, hexc, hlog, hun, hpw, hur]
            rw [hrw] at h ⊢
            rw [uriLoop_eq] at h ⊢
            cases hE : emits folder_id i.folderId with
            | true =>
              simp [hE, includedItem, hexc, hlog, urisCount, hur]
            | false =>
              simp only [hE, Bool.false_eq_true, if_false] at h ⊢
              cases hc : (truthy folder_id && i.folderId.isNone
                  && !us.isEmpty) with
              | true => simp [hc] at h
              | false => simp [hc, includedItem, hexc, hlog, hE]

/-- When the item loop completes without error, the total number of lines
written is the sum of the per-item counts. -/
theorem convertItems_len (folder_id exclude : Option String) :
    ∀ items : List Item, (convertItems folder_id exclude items).2 = none →
      (convertItems folder_id exclude items).1.length =
        (items.map (fun i =>
          if includedItem folder_id exclude i then urisCount i else 0)).sum
  | [] => by simp [convertItems]
  | i :: is => by
    intro h
    rcases hp : processItem folder_id exclude i with ⟨ls, e⟩
    cases e with
    | some err => simp [convertItems, hp] at h
    | none =>
      rcases hr : convertItems folder_id exclude is with ⟨ls2, e2⟩
      have hgoal : convertItems folder_id exclude (i :: is) =
          (ls ++ ls2, e2) := by
        simp [convertItems, hp, hr]
      rw [hgoal] at h ⊢
      have h1 : ls.length =
          if includedItem folder_id exclude i then urisCount i else 0 := by
        have := processItem_len folder_id exclude i (by rw [hp])
        rwa [hp] at this
      have h2 : ls2.length =
          (is.map (fun j =>
            if includedItem folder_id exclude j then urisCount j else 0)).sum := by
        have := convertItems_len folder_id exclude is (by rw [hr]; exact h)
        rwa [hr] at this
      simp [List.length_append, h1, h2]

theorem folderScan_nomatch (name : String) :
    ∀ fs : List Folder, (∀ f ∈ fs, f.name ≠ name) → folderScan fs name = none
  | [], _ => rfl
  | f :: fs, h => by
    have hb : (f.name == name) = false :=
      beq_eq_false_iff_ne.mpr (h f (List.mem_cons_self f fs))
    simp only [folderScan, hb, Bool.false_eq_true, if_false]
    exact folderScan_nomatch name fs (fun g hg => h g (List.mem_cons_of_mem f hg))

theorem folderScan_first (name : String) (f : Folder) (post : List Folder)
    (hf : f.name = name) :
    ∀ pre : List Folder, (∀ g ∈ pre, g.name ≠ name) →
      folderScan (pre ++ f :: post) name = some f.id
  | [], _ => by simp [folderScan, hf]
  | g :: pre, h => by
    have hb : (g.name == name) = false :=
      beq_eq_false_iff_ne.mpr (h g (List.mem_cons_self g pre))
    simp only [List.cons_append, folderScan, hb, Bool.false_eq_true, if_false]
    exact folderScan_first name f post hf pre
      (fun x hx => h x (List.mem_cons_of_mem g hx))

/-- Claim C1, counterexample: on a document whose only item has login data
with one uri but no username key, the run aborts and emits zero lines,
while the item counts as included with one uri, so emitted records and the
per-item uri sum differ (0 versus 1). -/
theorem records_sum_cex :
    (pymain true ⟨some "f", none, none⟩ (some docNoUser)).lines.length = 0 ∧
    (docNoUser.items.map (fun i =>
      if includedItem (resolvedFilter ⟨some "f", none, none⟩ docNoUser)
          (resolvedExclude ⟨some "f", none, none⟩ docNoUser) i
      then urisCount i else 0)).sum = 1 := by
  decide

/-- Claim C1, amended: for every run that completes without an uncaught
error (exit status 0), the number of lines written to the csv file equals
the sum over included items of the number of entries in their uris
sequence; in particular such an item with N uris produces N lines and one
with zero uris produces zero lines. -/
theorem records_eq_sum_when_ok (args : Args) (js : Doc)
    (hfile : truthy args.file = true)
    (hok : (pymain true args (some js)).exitCode = 0) :
    (pymain true args (some js)).lines.length =
      (js.items.map (fun i =>
        if includedItem (resolvedFilter args js) (resolvedExclude args js) i
        then urisCount i else 0)).sum := by
  rcases hr : convertItems (resolvedFilter args js) (resolvedExclude args js)
      js.items with ⟨ls, e⟩
  cases e with
  | some err => simp [pymain, hfile, hr] at hok
  | none =>
    have hlen : ls.length =
        (js.items.map (fun i =>
          if includedItem (resolvedFilter args js) (resolvedExclude args js) i
          then urisCount i else 0)).sum := by
      have := convertItems_len (resolvedFilter args js)
        (resolvedExclude args js) js.items (by rw [hr])
      rwa [hr] at this
    simp [pymain, hfile, hr, hlen]

/-- Claim C1, witness for the amended theorem at a concrete document. -/
theorem records_eq_sum_when_ok_witness :
    (pymain true ⟨some "f", some "Work", none⟩ (some docOk)).lines.length =
      (docOk.items.map (fun i =>
        if includedItem (resolvedFilter ⟨some "f", some "Work", none⟩ docOk)
            (resolvedExclude ⟨some "f", some "Work", none⟩ docOk) i
        then urisCount i else 0)).sum :=
  records_eq_sum_when_ok ⟨some "f", some "Work", none⟩ docOk (by decide)
    (by decide)

/-- Claim C2, counterexample: with include folder Work resolving to id 1,
an item whose folderId is 12 — not equal to 1 — is still included and
emits its line, because the include check is Python substring containment,
not strict equality. -/
theorem include_not_strict_equality_cex :
    folder_name_to_id docSubstr "Work" = some "1" ∧
    docSubstr.items.map Item.folderId = [some "12"] ∧
    (some "12" : Option String) ≠ some "1" ∧
    (pymain true ⟨some "f", some "Work", none⟩ (some docSubstr)).lines
      = ["x,u,p"] := by
  decide

/-- Claim C2, amended: when a nonempty include id is set, an item that has
full login data with at least one uri, passes the exclude check and has a
folderId present is included in the output if and only if the include id
is a substring of its folderId (the Python in operator), not only on
strict equality. -/
theorem include_iff_substring (incId : String) (exclude : Option String)
    (i : Item) (lg : Login) (un pw : Option String) (fid : String)
    (u : UriEntry) (us : List UriEntry)
    (hne : incId ≠ "")
    (hexc : excludedBy exclude i = false)
    (hlog : i.login = some lg) (hun : lg.username = some un)
    (hpw : lg.password = some pw) (hur : lg.uris = some (u :: us))
    (hfid : i.folderId = some fid) :
    (processItem (some incId) exclude i).1 ≠ [] ↔ pyIn incId fid = true := by
  have hT : truthy (some incId) = true := by
    simp [truthy, hne]
  have hrw : processItem (some incId) exclude i =
      uriLoop (some incId) (some fid) un pw (u :: us) := by
    simp [processItem, hexc, hlog, hun, hpw, hur, hfid]
  rw [hrw, uriLoop_eq]
  have hE : emits (some incId) (some fid) = pyIn incId fid := by
    simp [emits, hT]
  cases hP : pyIn incId fid with
  | true => simp [hE, hP]
  | false => simp [hE, hP]

/-- Claim C2, witness for the amended theorem: include id 1, item folderId
12, one uri — included exactly because 1 occurs inside 12. -/
theorem include_iff_substring_witness :
    (processItem (some "1") none
        ⟨some "12", some (fullLogin (some "u") (some "p") [⟨"x"⟩])⟩).1 ≠ []
      ↔ pyIn "1" "12" = true :=
  include_iff_substring "1" none
    ⟨some "12", some (fullLogin (some "u") (some "p") [⟨"x"⟩])⟩
    (fullLogin (some "u") (some "p") [⟨"x"⟩])
    (some "u") (some "p") "12" ⟨"x"⟩ []
    (by decide) (by decide) rfl rfl rfl rfl rfl

/-- Claim C3, counterexample: an item with login data but no uris key is
included, yet processing it raises an uncaught KeyError instead of
treating the missing uris as an empty sequence. -/
theorem extraction_total_cex :
    includedItem none none itemNoUris = true ∧
    processItem none none itemNoUris =
      ([], some (PyError.attrError "uris")) := by
  decide

/-- Claim C3, amended: extraction reads username, password and uris by
direct key access, so for an item past the exclude and login checks a
missing username, password or uris key raises an uncaught KeyError that
aborts the run; only present-but-null username or password values pass
through (rendered as None), and a present-but-empty uris list yields zero
records without failing. -/
theorem extraction_direct_access (folder_id exclude : Option String)
    (i : Item) (lg : Login)
    (hexc : excludedBy exclude i = false) (hlog : i.login = some lg) :
    (lg.username = none →
      processItem folder_id exclude i =
        ([], some (PyError.attrError "username"))) ∧
    (∀ un, lg.username = some un → lg.password = none →
      processItem folder_id exclude i =
        ([], some (PyError.attrError "password"))) ∧
    (∀ un pw, lg.username = some un → lg.password = some pw →
      lg.uris = none →
      processItem folder_id exclude i =
        ([], some (PyError.attrError "uris"))) ∧
    (∀ un pw, lg.username = some un → lg.password = some pw →
      lg.uris = some [] →
      processItem folder_id exclude i = ([], none)) ∧
    (∀ pw us, lg.username = some none → lg.password = some pw →
      lg.uris = some us → truthy folder_id = false →
      (processItem folder_id exclude i).1 = us.map (mkRecord none pw)) := by
  refine ⟨?_, ?_, ?_, ?_, ?_⟩
  · intro hun
    simp [processItem, hexc, hlog, hun]
  · intro un hun hpw
    simp [processItem, hexc, hlog, hun, hpw]
  · intro un pw hun hpw hur
    simp [processItem, hexc, hlog, hun, hpw, hur]
  · intro un pw hun hpw hur
    simp [processItem, hexc, hlog, hun, hpw, hur, uriLoop]
  · intro pw us hun hpw hur hT
    have hE : emits folder_id i.folderId = true := by simp [emits, hT]
    simp [processItem, hexc, hlog, hun, hpw, hur, uriLoop_eq, hE]

/-- Claim C3, witness for the amended theorem: an item with an empty uris
list is processed without error and writes nothing. -/
theorem extraction_direct_access_witness :
    processItem none none itemEmptyUris = ([], none) :=
  (extraction_direct_access none none itemEmptyUris
      (fullLogin (some "u") (some "p") []) (by decide) rfl).2.2.2.1
    (some "u") (some "p") rfl rfl rfl

/-- Claim C4, counterexample: with --filter X unresolvable (no folders at
all), the only item is still emitted — resolution failure disables the
filter instead of making it match nothing. -/
theorem unresolved_filter_cex :
    folder_name_to_id docUnresolved "X" = none ∧
    (pymain true ⟨some "f", some "X", none⟩ (some docUnresolved)).lines
      = ["x,u,p"] := by
  decide

/-- Claim C4, amended: if --filter is given with a name matching no folder
(resolution returns absence), the run behaves exactly as if --filter had
not been given at all: no include restriction applies, and items pass
subject only to the exclude and login checks. -/
theorem unresolved_filter_no_restriction (args : Args) (js : Doc)
    (hfil : truthy args.filter = true)
    (hres : folder_name_to_id js (args.filter.getD "") = none) :
    pymain true args (some js) =
      pymain true { args with filter := none } (some js) := by
  have h1 : resolvedFilter args js = none := by
    simp [resolvedFilter, hfil, hres]
  have h2 : resolvedFilter { args with filter := none } js = none := by
    simp [resolvedFilter, truthy]
  have h3 : resolvedExclude { args with filter := none } js =
      resolvedExclude args js := rfl
  simp only [pymain, h1, h2, h3]

/-- Claim C4, witness for the amended theorem at a concrete document. -/
theorem unresolved_filter_no_restriction_witness :
    pymain true ⟨some "f", some "X", none⟩ (some docUnresolved) =
      pymain true { (⟨some "f", some "X", none⟩ : Args) with filter := none }
        (some docUnresolved) :=
  unresolved_filter_no_restriction ⟨some "f", some "X", none⟩ docUnresolved
    (by decide) (by decide)

/-- Claim C5, counterexample: a folder with the empty string as id, used
as both include and exclude target, and an item inside it: the folderId
equals both resolved ids, yet the item is emitted, because empty strings
are falsy and both checks are skipped. -/
theorem exclude_precedence_cex :
    folder_name_to_id docEmptyId "E" = some "" ∧
    docEmptyId.items.map Item.folderId = [some ""] ∧
    (pymain true ⟨some "f", some "E", some "E"⟩ (some docEmptyId)).lines
      = ["x,u,p"] := by
  decide

/-- Claim C5, amended: exclude takes precedence over include provided the
matched id is a nonempty string: an item whose folderId equals the
resolved exclude id contributes no output records, whatever the include
id is; with an empty-string id the falsy value skips both checks. -/
theorem exclude_wins_nonempty (folder_id : Option String)
    (excludeId : String) (i : Item)
    (hfid : i.folderId = some excludeId) (hne : excludeId ≠ "") :
    processItem folder_id (some excludeId) i = ([], none) := by
  have hx : excludedBy (some excludeId) i = true := by
    simp [excludedBy, hfid, truthy, hne, pyIn_refl]
  simp [processItem, hx]

/-- Claim C5, witness for the amended theorem: item in folder 1 with both
ids equal to 1 writes nothing even though it has a uri. -/
theorem exclude_wins_nonempty_witness :
    processItem (some "1") (some "1")
      ⟨some "1", some (fullLogin (some "u") (some "p") [⟨"x"⟩])⟩
      = ([], none) :=
  exclude_wins_nonempty (some "1") "1"
    ⟨some "1", some (fullLogin (some "u") (some "p") [⟨"x"⟩])⟩
    rfl (by decide)

/-- Claim C6: an item whose login field is absent or null contributes zero
output records for every include and exclude setting: it writes no lines
and raises no error, and deleting it from the item list leaves the whole
conversion output unchanged. -/
theorem no_login_no_records (folder_id exclude : Option String) (i : Item)
    (h : i.login = none) :
    processItem folder_id exclude i = ([], none) ∧
    ∀ pre post : List Item,
      convertItems folder_id exclude (pre ++ i :: post) =
        convertItems folder_id exclude (pre ++ post) := by
  have hp : processItem folder_id exclude i = ([], none) := by
    unfold processItem
    split
    · rfl
    · rw [h]
  refine ⟨hp, ?_⟩
  intro pre post
  induction pre with
  | nil =>
    rcases hr : convertItems folder_id exclude post with ⟨ls2, e2⟩
    simp [convertItems, hp, hr]
  | cons a pre ih =>
    simp only [List.cons_append, convertItems, List.append_eq]
    rw [ih]

/-- Claim C6, witness: a concrete item without login data writes nothing. -/
theorem no_login_no_records_witness :
    processItem (some "1") (some "2") itemNoLogin = ([], none) :=
  (no_login_no_records (some "1") (some "2") itemNoLogin rfl).1

/-- Claim C7, counterexample: invoked with arguments but without --file,
the program prints its error line and terminates via the bare exit()
call, whose exit status is 0 — not a non-zero status as claimed (no
output file is created, as claimed). -/
theorem missing_file_exit_cex :
    pymain true ⟨none, none, none⟩ none =
      { exitCode := 0, csvCreated := false, lines := [],
        message := some "Error: Need a json file from Bitwarden" } ∧
    (pymain true ⟨none, none, none⟩ none).exitCode = 0 := by
  decide

/-- Claim C7, amended: invoked with at least one argument but with a falsy
--file value, the program prints its error message and terminates with
exit status zero (bare exit()), creating and writing no output file. -/
theorem missing_file_exits_zero (args : Args) (loaded : Option Doc)
    (h : truthy args.file = false) :
    pymain true args loaded =
      { exitCode := 0, csvCreated := false, lines := [],
        message := some "Error: Need a json file from Bitwarden" } := by
  simp [pymain, h]

/-- Claim C7, witness for the amended theorem: an empty --file value also
takes the error path. -/
theorem missing_file_exits_zero_witness :
    pymain true ⟨some "", none, none⟩ (some docOk) =
      { exitCode := 0, csvCreated := false, lines := [],
        message := some "Error: Need a json file from Bitwarden" } :=
  missing_file_exits_zero ⟨some "", none, none⟩ (some docOk) (by decide)

/-- Claim C8: when the input file is missing or not parseable (load_json
raises before the output file is opened), the run aborts with a non-zero
status, the csv file is not created or truncated, and no lines are
written. -/
theorem load_failure_no_output (args : Args)
    (h : truthy args.file = true) :
    pymain true args none =
      { exitCode := 1, csvCreated := false, lines := [],
        message := some "traceback" } := by
  simp [pymain, h]

/-- Claim C8, witness at a concrete argument vector. -/
theorem load_failure_no_output_witness :
    pymain true ⟨some "missing.json", none, none⟩ none =
      { exitCode := 1, csvCreated := false, lines := [],
        message := some "traceback" } :=
  load_failure_no_output ⟨some "missing.json", none, none⟩ (by decide)

/-- Claim C9: folder resolution scans the folders sequence in order: if no
folder name equals the given name the result is absence (no error), and
if the list splits as pre ++ f :: post with f the first match, the result
is the id of f — so duplicate names resolve to the earliest folder. -/
theorem folder_name_to_id_first_match (js : Doc) (name : String) :
    ((∀ f ∈ js.folders, f.name ≠ name) →
      folder_name_to_id js name = none) ∧
    (∀ pre f post, js.folders = pre ++ f :: post → f.name = name →
      (∀ g ∈ pre, g.name ≠ name) →
      folder_name_to_id js name = some f.id) := by
  constructor
  · intro h
    exact folderScan_nomatch name js.folders h
  · intro pre f post heq hf hpre
    unfold folder_name_to_id
    rw [heq]
    exact folderScan_first name f post hf pre hpre

/-- Claim C9, witness: with two folders both named Work the first id wins,
and an unknown name resolves to absence. -/
theorem folder_name_to_id_first_match_witness :
    folder_name_to_id docDup "Work" = some "1" ∧
    folder_name_to_id docDup "Nope" = none :=
  ⟨(folder_name_to_id_first_match docDup "Work").2 [] ⟨"1", "Work"⟩
      [⟨"2", "Work"⟩] rfl rfl (by simp),
   (folder_name_to_id_first_match docDup "Nope").1 (by decide)⟩

/-- Claim C10: when an include id is set (truthy), an item with full login
data and at least one uri but no (or null) folderId makes the run abort
with an uncaught error at the include check — the folderId is read there
without a default — instead of the item being skipped. -/
theorem missing_folderId_aborts (folder_id exclude : Option String)
    (i : Item) (lg : Login) (un pw : Option String) (u : UriEntry)
    (us : List UriEntry)
    (hinc : truthy folder_id = true) (hfid : i.folderId = none)
    (hlog : i.login = some lg) (hun : lg.username = some un)
    (hpw : lg.password = some pw) (hur : lg.uris = some (u :: us)) :
    processItem folder_id exclude i =
      ([], some (PyError.attrError "folderId")) := by
  have hexc : excludedBy exclude i = false := by
    simp [excludedBy, hfid, truthy]
  have hrw : processItem folder_id exclude i =
      uriLoop folder_id none un pw (u :: us) := by
    simp [processItem, hexc, hlog, hun, hpw, hur, hfid]
  rw [hrw, uriLoop_eq]
  have hE : emits folder_id none = false := by simp [emits, hinc]
  simp [hE, hinc]

/-- Claim C10, witness: include id 1, item with one uri and no folderId. -/
theorem missing_folderId_aborts_witness :
    processItem (some "1") none itemNoFolder =
      ([], some (PyError.attrError "folderId")) :=
  missing_folderId_aborts (some "1") none itemNoFolder
    (fullLogin (some "u") (some "p") [⟨"x"⟩]) (some "u") (some "p")
    ⟨"x"⟩ [] (by decide) rfl rfl rfl rfl rfl

end Bw2mp
